import Mathlib

/-!
# Verification of the movie-recommendation catalog engine

Shallow embedding of `src/movie_recommendation_app.py`: the catalog
normalization pipeline (poster-path repair, year range filter, language/genre
text normalization, deduplication), the distinct-value enumerations, the
exact-match filter, and the recommendation sampler.

Modelling conventions:
* A pandas row is a `Movie` record.  Cells that may be `NaN` in the source
  data (`Language`, `Genre`, `Year`, `Image_Path`) are `Option`-typed, with
  `none` standing for `NaN`; pandas comparison semantics (`NaN == x` is
  false) are embedded explicitly where the code compares columns.
* `Title` and `Description` are plain text (the data model treats the title
  as a non-empty text identity key).
* `Rating` is only ever compared for equality (in the deduplication key), so
  its float values are represented by an integer-valued stand-in; no
  arithmetic on ratings occurs anywhere in the program.
* `pandas.DataFrame.sample(n, random_state=42)` draws `n` rows without
  replacement, deterministically for a fixed seed.  The embedding uses a
  concrete deterministic linear-congruential index selection; every property
  proved about it (result size, membership in the population, determinism,
  error on `n > population`) is independent of which particular permutation
  the seeded generator produces.
* `st.error`/`st.stop` abort paths are modelled by `Except String`.
-/

/-- A row of the movie table: raw on load, normalized in the catalog.
The source mutates one pandas frame in place, so one record type serves
both stages. -/
structure Movie where
  title : String
  description : String
  language : Option String
  genre : Option String
  year : Option Int
  rating : Int
  image_path : Option String
deriving DecidableEq, Repr

/-- The raw dataset as read from the spreadsheet: the column names it
actually carries, plus its rows in source order. -/
structure RawDataset where
  columns : List String
  rows : List Movie
deriving DecidableEq, Repr

/-! ## Poster path repair (lines 41-42)

`movies['Image_Path'].str.replace('poster/', 'posters/', regex=False)`
replaces every occurrence of the literal `poster/`, left to right;
`.str.replace(r'_\.jpg$', '.jpg', regex=True)` drops one underscore
directly before a terminal `.jpg`. -/

/-- Left-to-right replacement of every occurrence of the literal segment
`poster/` by `posters/`, as `str.replace(..., regex=False)` does. -/
def replacePoster : List Char → List Char
  | 'p' :: 'o' :: 's' :: 't' :: 'e' :: 'r' :: '/' :: rest =>
      'p' :: 'o' :: 's' :: 't' :: 'e' :: 'r' :: 's' :: '/' :: replacePoster rest
  | c :: cs => c :: replacePoster cs
  | [] => []

/-- The characters of the regex literal match `_.jpg`. -/
def underscoreJpg : List Char := ['_', '.', 'j', 'p', 'g']

/-- The characters of the replacement `.jpg`. -/
def dotJpg : List Char := ['.', 'j', 'p', 'g']

/-- `re.sub(r'_\.jpg$', '.jpg', s)`: if the string ends in `_.jpg`, drop the
underscore of that ending; otherwise leave it unchanged. -/
def stripUnderscoreJpg (s : List Char) : List Char :=
  if underscoreJpg.isSuffixOf s then s.take (s.length - 5) ++ dotJpg else s

/-- The whole poster-path repair applied to one non-null cell. -/
def fixPath (p : String) : String :=
  ⟨stripUnderscoreJpg (replacePoster p.data)⟩

/-- Line 41-42 applied to a row: `.str` operations skip `NaN` cells. -/
def fixPathStep (r : Movie) : Movie :=
  { r with image_path := r.image_path.map fixPath }

/-! ## Year range filter (line 45)

`movies[(movies['Year'] >= 2014) & (movies['Year'] <= 2024)]`; a `NaN`
year compares false on both sides and the row is dropped. -/

/-- Pandas truth value of `Year >= 2014 & Year <= 2024` for one cell. -/
def yearInRange : Option Int → Bool
  | some y => decide (2014 ≤ y) && decide (y ≤ 2024)
  | none => false

/-! ## Language/Genre normalization (lines 48-49)

`.str.strip().str.title()` on the two columns; `NaN` cells pass through. -/

/-- Python `str.strip()`: remove leading and trailing whitespace. -/
def pyStrip (s : List Char) : List Char :=
  ((s.dropWhile Char.isWhitespace).reverse.dropWhile Char.isWhitespace).reverse

/-- Python `str.title()`: uppercase every character that follows a
non-alphabetic character, lowercase the rest. -/
def pyTitle (s : List Char) : List Char :=
  (s.foldl
    (fun acc c =>
      ((if acc.2 then c.toLower else c.toUpper) :: acc.1, c.isAlpha))
    (([] : List Char), false)).1.reverse

/-- `str.strip().str.title()` on one non-null cell. -/
def normText (s : String) : String := ⟨pyTitle (pyStrip s.data)⟩

/-- Lines 48-49 applied to a row. -/
def normTextStep (r : Movie) : Movie :=
  { r with language := r.language.map normText, genre := r.genre.map normText }

/-! ## Deduplication (line 52)

`movies.drop_duplicates(subset=['Title', 'Language', 'Genre', 'Year',
'Rating'])`: keep the first row of each composite key, in order. -/

/-- The composite key of `drop_duplicates(subset=...)`. -/
def dedupKey (r : Movie) : String × Option String × Option String × Option Int × Int :=
  (r.title, r.language, r.genre, r.year, r.rating)

/-- Keep each row whose key has not been seen yet, first occurrence wins. -/
def dedupAux (seen : List (String × Option String × Option String × Option Int × Int)) :
    List Movie → List Movie
  | [] => []
  | x :: xs =>
      if dedupKey x ∈ seen then dedupAux seen xs
      else x :: dedupAux (dedupKey x :: seen) xs

/-- `drop_duplicates` over the whole frame. -/
def dedup (l : List Movie) : List Movie := dedupAux [] l

/-! ## The normalization pipeline (lines 29-52) -/

/-- The rows as they stand right before `drop_duplicates`: poster paths
repaired, out-of-range years dropped, language and genre normalized. -/
def preDedup (rows : List Movie) : List Movie :=
  ((rows.map fixPathStep).filter (fun r => yearInRange r.year)).map normTextStep

/-- The full frame transformation of lines 41-52. -/
def normalizeRows (rows : List Movie) : List Movie := dedup (preDedup rows)

/-- Line 31: the set the code requires as a subset of the frame's columns.
Note that `Image_Path` is in it. -/
def required_columns : List String :=
  ["Title", "Description", "Language", "Genre", "Year", "Rating", "Image_Path"]

/-- Lines 29-52 end to end: the column check of lines 31-35 (whose failure
calls `st.error`/`st.stop`, modelled as `.error`), then the pipeline. -/
def loadAndNormalize (d : RawDataset) : Except String (List Movie) :=
  if required_columns.all (fun c => d.columns.contains c) then
    .ok (normalizeRows d.rows)
  else
    .error "Dataset is missing required columns!"

/-! ## Distinct-value enumerations (lines 55-57)

`sorted(movies[col].dropna().unique())`: `.dropna()` removes `NaN`,
`.unique()` keeps the first occurrence of each value, `sorted` orders
ascending. -/

/-- `.unique()`: first occurrence of each value, in encounter order. -/
def uniqueFirst {α : Type} [DecidableEq α] (seen : List α) : List α → List α
  | [] => []
  | x :: xs =>
      if x ∈ seen then uniqueFirst seen xs else x :: uniqueFirst (x :: seen) xs

/-- Line 55: the distinct non-null languages, sorted. -/
def language_options (movies : List Movie) : List String :=
  (uniqueFirst [] (movies.filterMap (fun r => r.language))).insertionSort (· ≤ ·)

/-- Line 56: the distinct non-null genres, sorted. -/
def genre_options (movies : List Movie) : List String :=
  (uniqueFirst [] (movies.filterMap (fun r => r.genre))).insertionSort (· ≤ ·)

/-- Line 57: the distinct non-null years, sorted. -/
def year_options (movies : List Movie) : List Int :=
  (uniqueFirst [] (movies.filterMap (fun r => r.year))).insertionSort (· ≤ ·)

/-! ## Filter engine (lines 88-92)

`movies[(movies['Year'] == y) & (movies['Genre'] == g) &
(movies['Language'] == l)]` with the selections drawn from the option
lists.  A `NaN` cell compares unequal to every scalar in pandas. -/

/-- Pandas `column == scalar` on an integer cell: `NaN` yields false. -/
def pdEqInt (cell : Option Int) (v : Int) : Bool :=
  match cell with
  | some x => x == v
  | none => false

/-- Pandas `column == scalar` on a string cell: `NaN` yields false. -/
def pdEqStr (cell : Option String) (v : String) : Bool :=
  match cell with
  | some x => x == v
  | none => false

/-- Lines 88-92: the rows matching the three selected values, in frame
order. -/
def filtered_movies (movies : List Movie) (y : Int) (g l : String) : List Movie :=
  movies.filter (fun r => pdEqInt r.year y && pdEqStr r.genre g && pdEqStr r.language l)

/-! ## Recommendation sampler (lines 129-133)

```
recommendations = movies[
    (movies['Title'] != selected_movie['Title']) &
    (movies['Language'] == selected_movie['Language']) &
    (movies['Genre'] == selected_movie['Genre'])
].sample(min(3, len(movies)), random_state=42)
```

Note the sample size is `min(3, len(movies))` — computed from the whole
frame, not from the candidate subset being sampled; `DataFrame.sample`
raises `ValueError` when asked for more rows than the frame holds. -/

/-- Pandas `column == column-cell` where both sides may be `NaN`:
`NaN == anything` (including `NaN`) is false. -/
def pdEqCell (a b : Option String) : Bool :=
  match a, b with
  | some x, some y => x == y
  | _, _ => false

/-- The candidate rows: same language and genre as the chosen row under
pandas equality, and a different title. -/
def candidates (movies : List Movie) (sel : Movie) : List Movie :=
  movies.filter (fun m =>
    (m.title != sel.title) && pdEqCell m.language sel.language &&
      pdEqCell m.genre sel.genre)

/-- One step of the seeded pseudo-random state (a linear congruential
generator standing in for the seeded numpy generator; see the header note:
no proved property depends on the particular permutation). -/
def lcg (s : Nat) : Nat := (s * 1103515245 + 12345) % 2147483648

/-- Draw up to `n` rows without replacement, deterministically from the
seed: pick the index `seed % population`, remove that row, recurse with the
stepped seed. -/
def sampleAux : Nat → Nat → List Movie → List Movie
  | _, 0, _ => []
  | _, _ + 1, [] => []
  | seed, n + 1, x :: xs =>
      let i := seed % (x :: xs).length
      (x :: xs).getD i x :: sampleAux (lcg seed) n ((x :: xs).eraseIdx i)

/-- `DataFrame.sample(n, random_state=seed)`: `n` rows without replacement
when `n` does not exceed the population, `ValueError` otherwise. -/
def pdSample (seed n : Nat) (l : List Movie) : Except String (List Movie) :=
  if n ≤ l.length then .ok (sampleAux seed n l)
  else .error "Cannot take a larger sample than population when replace is False"

/-- Lines 129-133: the recommendation draw of `show_recommendations`,
sampling `min(3, len(movies))` rows from the candidate subset with
`random_state=42`. -/
def show_recommendations (movies : List Movie) (sel : Movie) :
    Except String (List Movie) :=
  pdSample 42 (min 3 movies.length) (candidates movies sel)

/-! ## Supporting lemmas -/

/-- The characters of the misspelled segment `poster/`. -/
def posterSeg : List Char := ['p', 'o', 's', 't', 'e', 'r', '/']

/-- The characters of the corrected segment `posters/`. -/
def postersSeg : List Char := ['p', 'o', 's', 't', 'e', 'r', 's', '/']

theorem replacePoster_eq_self (s : List Char) :
    ¬ posterSeg <:+: s → replacePoster s = s := by
  induction s using replacePoster.induct with
  | case1 rest ih =>
      intro h
      exact absurd ⟨[], rest, rfl⟩ h
  | case2 c cs hne ih =>
      intro h
      rw [replacePoster.eq_2 c cs hne, ih (fun hcs => h (List.infix_cons hcs))]
  | case3 =>
      intro _
      rfl

theorem stripUnderscoreJpg_append (q : List Char) :
    stripUnderscoreJpg (q ++ underscoreJpg) = q ++ dotJpg := by
  unfold stripUnderscoreJpg
  rw [if_pos (by simp [List.isSuffixOf_iff_suffix])]
  congr 1
  simp [underscoreJpg]

theorem stripUnderscoreJpg_eq_self (s : List Char) (h : ¬ underscoreJpg <:+ s) :
    stripUnderscoreJpg s = s := by
  unfold stripUnderscoreJpg
  rw [if_neg (by simpa [List.isSuffixOf_iff_suffix] using h)]

theorem pdEqInt_eq_true {cell : Option Int} {v : Int} :
    pdEqInt cell v = true ↔ cell = some v := by
  cases cell <;> simp [pdEqInt]

theorem pdEqStr_eq_true {cell : Option String} {v : String} :
    pdEqStr cell v = true ↔ cell = some v := by
  cases cell <;> simp [pdEqStr]

theorem sampleAux_length (n : Nat) :
    ∀ (seed : Nat) (l : List Movie), n ≤ l.length → (sampleAux seed n l).length = n := by
  induction n with
  | zero => intro seed l _; rfl
  | succ m ih =>
    intro seed l h
    cases l with
    | nil => simp at h
    | cons x xs =>
      simp only [List.length_cons] at h
      have hi : seed % (xs.length + 1) < (x :: xs).length :=
        Nat.mod_lt _ (Nat.succ_pos _)
      have hlen : ((x :: xs).eraseIdx (seed % (xs.length + 1))).length = xs.length := by
        rw [List.length_eraseIdx_of_lt hi]
        simp
      simp only [sampleAux, List.length_cons]
      rw [ih (lcg seed) _ (by rw [hlen]; omega)]

theorem mem_of_mem_sampleAux (n : Nat) :
    ∀ (seed : Nat) (l : List Movie) (r : Movie), r ∈ sampleAux seed n l → r ∈ l := by
  induction n with
  | zero => intro seed l r h; simp [sampleAux] at h
  | succ m ih =>
    intro seed l r h
    cases l with
    | nil => simp [sampleAux] at h
    | cons x xs =>
      have hi : seed % (xs.length + 1) < (x :: xs).length :=
        Nat.mod_lt _ (Nat.succ_pos _)
      simp only [sampleAux, List.length_cons, List.mem_cons] at h
      rcases h with h | h
      · rw [h, List.getD_eq_getElem _ _ hi]
        exact List.getElem_mem hi
      · exact List.mem_of_mem_eraseIdx (ih (lcg seed) _ r h)

theorem dedupAux_find (l : List Movie) :
    ∀ (seen : List (String × Option String × Option String × Option Int × Int)),
      ∀ r ∈ dedupAux seen l, dedupKey r ∉ seen ∧
        l.find? (fun x => dedupKey x == dedupKey r) = some r := by
  induction l with
  | nil => intro seen r hr; simp [dedupAux] at hr
  | cons x xs ih =>
    intro seen r hr
    by_cases hx : dedupKey x ∈ seen
    · simp only [dedupAux, if_pos hx] at hr
      obtain ⟨h1, h2⟩ := ih seen r hr
      refine ⟨h1, ?_⟩
      rw [List.find?_cons_of_neg, h2]
      simp only [beq_iff_eq]
      intro hEq
      exact h1 (hEq ▸ hx)
    · simp only [dedupAux, if_neg hx] at hr
      rcases List.mem_cons.mp hr with rfl | hr'
      · exact ⟨hx, by simp⟩
      · obtain ⟨h1, h2⟩ := ih (dedupKey x :: seen) r hr'
        have hmem := List.mem_cons.not.mp h1
        push_neg at hmem
        refine ⟨hmem.2, ?_⟩
        rw [List.find?_cons_of_neg, h2]
        simp only [beq_iff_eq]
        exact fun e => hmem.1 e.symm

theorem dedupAux_pairwise (l : List Movie) :
    ∀ seen, (dedupAux seen l).Pairwise (fun a b => dedupKey a ≠ dedupKey b) := by
  induction l with
  | nil => intro seen; simp [dedupAux]
  | cons x xs ih =>
    intro seen
    by_cases hx : dedupKey x ∈ seen
    · simpa [dedupAux, hx] using ih seen
    · simp only [dedupAux, if_neg hx]
      refine List.Pairwise.cons ?_ (ih _)
      intro b hb e
      have h1 := (dedupAux_find xs _ b hb).1
      exact h1 (by simp [← e])

theorem mem_dedup (l : List Movie) (r : Movie) (h : r ∈ dedup l) : r ∈ l :=
  List.mem_of_find?_eq_some (dedupAux_find l [] r h).2

theorem mem_uniqueFirst {α : Type} [DecidableEq α] (l : List α) :
    ∀ (seen : List α) (a : α), a ∈ uniqueFirst seen l ↔ a ∈ l ∧ a ∉ seen := by
  induction l with
  | nil => intro seen a; simp [uniqueFirst]
  | cons x xs ih =>
    intro seen a
    by_cases hx : x ∈ seen
    · rw [uniqueFirst, if_pos hx, ih, List.mem_cons]
      constructor
      · exact fun ⟨h1, h2⟩ => ⟨Or.inr h1, h2⟩
      · rintro ⟨h1 | h1, h2⟩
        · exact absurd (h1 ▸ hx) h2
        · exact ⟨h1, h2⟩
    · rw [uniqueFirst, if_neg hx, List.mem_cons, ih, List.mem_cons, List.mem_cons]
      by_cases hax : a = x
      · subst hax; simp [hx]
      · simp [hax]

theorem mem_preDedup (rows : List Movie) (r : Movie) (h : r ∈ preDedup rows) :
    ∃ r₀ ∈ rows, r = normTextStep (fixPathStep r₀) ∧ yearInRange r₀.year = true := by
  unfold preDedup at h
  obtain ⟨r', hr', rfl⟩ := List.mem_map.mp h
  obtain ⟨h1, h2⟩ := List.mem_filter.mp hr'
  obtain ⟨r₀, h0, rfl⟩ := List.mem_map.mp h1
  exact ⟨r₀, h0, rfl, h2⟩

theorem year_of_mem_normalizeRows (rows : List Movie) (r : Movie)
    (h : r ∈ normalizeRows rows) :
    ∃ y, r.year = some y ∧ 2014 ≤ y ∧ y ≤ 2024 := by
  obtain ⟨r₀, h0, rfl, hy⟩ := mem_preDedup rows r (mem_dedup _ r h)
  cases hyr : r₀.year with
  | none => rw [hyr] at hy; simp [yearInRange] at hy
  | some y =>
      rw [hyr] at hy
      simp only [yearInRange, Bool.and_eq_true, decide_eq_true_eq] at hy
      exact ⟨y, hyr, hy.1, hy.2⟩

theorem image_path_of_mem_normalizeRows (rows : List Movie) (r : Movie)
    (h : r ∈ normalizeRows rows) :
    ∃ r₀ ∈ rows, r.image_path = r₀.image_path.map fixPath := by
  obtain ⟨r₀, h0, rfl, _⟩ := mem_preDedup rows r (mem_dedup _ r h)
  exact ⟨r₀, h0, rfl⟩

/-! ## Claims about the recommendation sampler -/

/-- Concrete catalog for claim C1: the second record shares neither genre nor
language with the first, so the first record has no candidates. -/
def c1Nova : Movie :=
  { title := "Nova", description := "a drama", language := some "English",
    genre := some "Drama", year := some 2020, rating := 75, image_path := none }

/-- The other record of the C1 catalog. -/
def c1Blip : Movie :=
  { title := "Blip", description := "an action film", language := some "French",
    genre := some "Action", year := some 2021, rating := 80, image_path := none }

/-- The C1 catalog. -/
def c1Catalog : List Movie := [c1Nova, c1Blip]

/-- C1: the claim (and the spec) require the recommendation draw to return
exactly `min(k, candidate_count)` records.  The code computes the sample size
from the whole catalog instead of the candidate subset: on the two-record
catalog `[Nova, Blip]` with chosen record `Nova` the candidate set is empty
and the claim demands an empty result, yet line 133 asks `DataFrame.sample`
for `min(3, len(movies)) = 2` rows out of the 0 candidates, and pandas raises
`ValueError`.  The spec's own design notes mark this size computation as an
unintentional slip, and lines 135-136 branch on an empty `recommendations`
frame that the call can never produce, so the code contradicts its own
intent: a code bug, witnessed here by evaluating the embedded code at the
failing input. -/
theorem show_recommendations_full_catalog_size_bug :
    candidates c1Catalog c1Nova = [] ∧
    show_recommendations c1Catalog c1Nova =
      .error "Cannot take a larger sample than population when replace is False" :=
  ⟨rfl, rfl⟩

/-- First record of the C3 catalog. -/
def c3Echo : Movie :=
  { title := "Echo", description := "a drama", language := some "English",
    genre := some "Drama", year := some 2021, rating := 80, image_path := none }

/-- Second record of the C3 catalog: same language, different genre. -/
def c3Kino : Movie :=
  { title := "Kino", description := "a comedy", language := some "English",
    genre := some "Comedy", year := some 2019, rating := 62, image_path := none }

/-- Third record of the C3 catalog: same genre, different language. -/
def c3Lumen : Movie :=
  { title := "Lumen", description := "a drama", language := some "German",
    genre := some "Drama", year := some 2022, rating := 71, image_path := none }

/-- The C3 catalog: no record shares both genre and language with `Echo`. -/
def c3Catalog : List Movie := [c3Echo, c3Kino, c3Lumen]

/-- C3: the claim says that with an empty candidate set the recommendation
operation returns an empty sequence and raises no error.  On this three-record
catalog the chosen record `Echo` has no candidate (one record differs in
genre, the other in language), yet line 133 requests `min(3, 3) = 3` sample
rows from the empty candidate frame and pandas raises `ValueError` instead of
returning the empty sequence.  Lines 135-136 of the code itself branch on an
empty `recommendations` result, so the error contradicts the code's own
intent (and the spec marks the size computation as a slip): a code bug,
witnessed by evaluating the embedded code at the failing input. -/
theorem show_recommendations_empty_candidates_error :
    candidates c3Catalog c3Echo = [] ∧
    show_recommendations c3Catalog c3Echo =
      .error "Cannot take a larger sample than population when replace is False" :=
  ⟨rfl, rfl⟩

/-- C5: whenever the recommendation draw returns a sequence, no record in it
carries the chosen record's title: the candidate filter of lines 130-132
excludes every identically-titled record, and the sample is drawn from the
candidates. -/
theorem show_recommendations_excludes_selected_title :
    ∀ (movies : List Movie) (sel : Movie) (l : List Movie),
      show_recommendations movies sel = .ok l → ∀ r ∈ l, r.title ≠ sel.title := by
  intro movies sel l h r hr
  unfold show_recommendations pdSample at h
  split at h
  · injection h with h'
    subst h'
    have hc := mem_of_mem_sampleAux _ _ _ r hr
    have hp := (List.mem_filter.mp hc).2
    rcases Bool.and_eq_true_iff.mp hp with ⟨hp1, _⟩
    rcases Bool.and_eq_true_iff.mp hp1 with ⟨ht, _⟩
    exact bne_iff_ne.mp ht
  · simp at h

/-- Chosen record for the C5 witness. -/
def c5Sel : Movie :=
  { title := "Origin", description := "a drama", language := some "English",
    genre := some "Drama", year := some 2018, rating := 77, image_path := none }

/-- A catalog of four records sharing `Origin`'s genre and language, so the
draw succeeds (three candidates, sample size `min(3, 4) = 3`). -/
def c5Catalog : List Movie :=
  [c5Sel,
   { title := "Orbit", description := "a drama", language := some "English",
     genre := some "Drama", year := some 2019, rating := 70, image_path := none },
   { title := "Quill", description := "a drama", language := some "English",
     genre := some "Drama", year := some 2020, rating := 72, image_path := none },
   { title := "Slate", description := "a drama", language := some "English",
     genre := some "Drama", year := some 2021, rating := 74, image_path := none }]

/-- The sequence the draw returns on the C5 witness catalog. -/
def c5Result : List Movie := ((show_recommendations c5Catalog c5Sel).toOption).getD []

/-- Witness for C5: a successful draw on a concrete catalog, with the
exclusion checked on the first returned record. -/
theorem show_recommendations_excludes_selected_title_witness :
    (c5Result.getD 0 c5Sel).title ≠ c5Sel.title :=
  show_recommendations_excludes_selected_title c5Catalog c5Sel c5Result rfl
    (c5Result.getD 0 c5Sel) (by decide)

/-- C9: the recommendation draw is a pure function of the catalog and the
chosen record — the seed is the constant `random_state=42` of line 133 —
so two invocations with identical arguments return identical results. -/
theorem show_recommendations_deterministic :
    ∀ (movies : List Movie) (sel : Movie) (r₁ r₂ : Except String (List Movie)),
      show_recommendations movies sel = r₁ → show_recommendations movies sel = r₂ →
      r₁ = r₂ := by
  intro movies sel r₁ r₂ h₁ h₂
  rw [← h₁, ← h₂]

/-- Chosen record for the C9 witness. -/
def c9Sel : Movie :=
  { title := "Vanta", description := "a thriller", language := some "Hindi",
    genre := some "Thriller", year := some 2016, rating := 69, image_path := none }

/-- A catalog on which the C9 witness runs the draw twice. -/
def c9Catalog : List Movie :=
  [c9Sel,
   { title := "Weir", description := "a thriller", language := some "Hindi",
     genre := some "Thriller", year := some 2017, rating := 66, image_path := none },
   { title := "Xenon", description := "a thriller", language := some "Hindi",
     genre := some "Thriller", year := some 2018, rating := 64, image_path := none },
   { title := "Yarrow", description := "a thriller", language := some "Hindi",
     genre := some "Thriller", year := some 2019, rating := 63, image_path := none }]

/-- Witness for C9 at a concrete catalog and chosen record. -/
theorem show_recommendations_deterministic_witness :
    show_recommendations c9Catalog c9Sel = show_recommendations c9Catalog c9Sel :=
  show_recommendations_deterministic c9Catalog c9Sel _ _ rfl rfl

/-! ## Claims about the filter engine and the normalization invariants -/

/-- C4: the filter of lines 88-92 is sound (every returned record carries the
selected year, genre and language), complete (every catalog record carrying
them is returned), and returns records in the catalog's source order (the
result is a `List.Sublist` of the catalog). -/
theorem filtered_movies_correct :
    ∀ (movies : List Movie) (y : Int) (g l : String),
      (∀ r ∈ filtered_movies movies y g l,
          r.year = some y ∧ r.genre = some g ∧ r.language = some l) ∧
      (∀ r ∈ movies, r.year = some y → r.genre = some g → r.language = some l →
          r ∈ filtered_movies movies y g l) ∧
      List.Sublist (filtered_movies movies y g l) movies := by
  intro movies y g l
  refine ⟨?_, ?_, List.filter_sublist _⟩
  · intro r hr
    have hp := (List.mem_filter.mp hr).2
    rcases Bool.and_eq_true_iff.mp hp with ⟨hp1, h3⟩
    rcases Bool.and_eq_true_iff.mp hp1 with ⟨h1, h2⟩
    exact ⟨pdEqInt_eq_true.mp h1, pdEqStr_eq_true.mp h2, pdEqStr_eq_true.mp h3⟩
  · intro r hr h1 h2 h3
    refine List.mem_filter.mpr ⟨hr, ?_⟩
    rw [Bool.and_eq_true_iff, Bool.and_eq_true_iff, pdEqInt_eq_true, pdEqStr_eq_true,
      pdEqStr_eq_true]
    exact ⟨⟨h1, h2⟩, h3⟩

/-- A record matching the C4 witness selection. -/
def c4Hit : Movie :=
  { title := "Nova", description := "a drama", language := some "English",
    genre := some "Drama", year := some 2020, rating := 75, image_path := none }

/-- A catalog for the C4 witness: one matching record, one record off by
year, one record with a null genre. -/
def c4Catalog : List Movie :=
  [{ title := "Echo", description := "a drama", language := some "English",
     genre := some "Drama", year := some 2021, rating := 80, image_path := none },
   c4Hit,
   { title := "Husk", description := "uncategorized", language := some "English",
     genre := none, year := some 2020, rating := 55, image_path := none }]

/-- Witness for C4: on a concrete catalog the matching record is returned,
and each returned record satisfies the three predicates. -/
theorem filtered_movies_correct_witness :
    c4Hit ∈ filtered_movies c4Catalog 2020 "Drama" "English" ∧
    (c4Hit.year = some 2020 ∧ c4Hit.genre = some "Drama" ∧
      c4Hit.language = some "English") :=
  ⟨(filtered_movies_correct c4Catalog 2020 "Drama" "English").2.1 c4Hit
      (by decide) rfl rfl rfl,
   (filtered_movies_correct c4Catalog 2020 "Drama" "English").1 c4Hit (by decide)⟩

/-- C6: in every catalog the normalizer produces, distinct records never
share the `(title, language, genre, year, rating)` tuple, and every surviving
record is the first row with its tuple (in source order) among the rows that
reach the deduplication step of line 52. -/
theorem normalize_dedup_invariant :
    ∀ (d : RawDataset) (cat : List Movie), loadAndNormalize d = .ok cat →
      cat.Pairwise (fun a b => dedupKey a ≠ dedupKey b) ∧
      ∀ r ∈ cat,
        (preDedup d.rows).find? (fun x => dedupKey x == dedupKey r) = some r := by
  intro d cat h
  unfold loadAndNormalize at h
  split at h
  · injection h with h'
    subst h'
    exact ⟨dedupAux_pairwise _ _, fun r hr => (dedupAux_find _ _ r hr).2⟩
  · simp at h

/-- First C6 row; its composite key recurs in the second row. -/
def c6DupFirst : Movie :=
  { title := "Nova", description := "first copy", language := some "English",
    genre := some "Drama", year := some 2020, rating := 75, image_path := none }

/-- Second C6 row: same composite key as the first, different description. -/
def c6DupSecond : Movie :=
  { title := "Nova", description := "second copy", language := some "English",
    genre := some "Drama", year := some 2020, rating := 75, image_path := none }

/-- Third C6 row: a distinct key. -/
def c6Other : Movie :=
  { title := "Echo", description := "a drama", language := some "English",
    genre := some "Drama", year := some 2021, rating := 80, image_path := none }

/-- The C6 witness dataset, duplicate key in rows one and two. -/
def c6Dataset : RawDataset :=
  { columns := required_columns, rows := [c6DupFirst, c6DupSecond, c6Other] }

/-- The record the pipeline keeps for the duplicated key: the first row,
normalized. -/
def c6KeptRecord : Movie := normTextStep (fixPathStep c6DupFirst)

/-- Witness for C6: on the concrete duplicate-bearing dataset the catalog's
keys are pairwise distinct and the kept record is the first source row of its
key. -/
theorem normalize_dedup_invariant_witness :
    (normalizeRows c6Dataset.rows).Pairwise (fun a b => dedupKey a ≠ dedupKey b) ∧
    (preDedup c6Dataset.rows).find?
        (fun x => dedupKey x == dedupKey c6KeptRecord) = some c6KeptRecord :=
  ⟨(normalize_dedup_invariant c6Dataset _ rfl).1,
   (normalize_dedup_invariant c6Dataset _ rfl).2 c6KeptRecord (by decide)⟩

/-- C7: every record of every catalog the normalizer produces has a non-null
year in the inclusive range [2014, 2024], and no catalog record carries the
year of a raw row the range filter of line 45 rejects — such rows are
excluded whatever their other fields hold. -/
theorem normalize_year_range :
    ∀ (d : RawDataset) (cat : List Movie), loadAndNormalize d = .ok cat →
      (∀ r ∈ cat, ∃ y, r.year = some y ∧ 2014 ≤ y ∧ y ≤ 2024) ∧
      (∀ row ∈ d.rows, yearInRange row.year = false →
        ∀ r ∈ cat, r.year ≠ row.year) := by
  intro d cat h
  unfold loadAndNormalize at h
  split at h
  · injection h with h'
    subst h'
    refine ⟨fun r hr => year_of_mem_normalizeRows _ r hr, ?_⟩
    intro row _ hfalse r hr hEq
    obtain ⟨y, hy, h1, h2⟩ := year_of_mem_normalizeRows _ r hr
    rw [← hEq, hy] at hfalse
    simp only [yearInRange, Bool.and_eq_false_iff, decide_eq_false_iff_not] at hfalse
    rcases hfalse with h | h
    · exact h h1
    · exact h h2
  · simp at h

/-- An in-range C7 row. -/
def c7Good : Movie :=
  { title := "Nova", description := "a drama", language := some "English",
    genre := some "Drama", year := some 2020, rating := 75, image_path := none }

/-- An out-of-range C7 row, otherwise fully valid. -/
def c7Old : Movie :=
  { title := "Relic", description := "too old", language := some "English",
    genre := some "Drama", year := some 2013, rating := 90, image_path := none }

/-- The C7 witness dataset. -/
def c7Dataset : RawDataset :=
  { columns := required_columns, rows := [c7Good, c7Old] }

/-- The normalized form of the in-range row. -/
def c7GoodRecord : Movie := normTextStep (fixPathStep c7Good)

/-- Witness for C7: the surviving record's year is in range, and no catalog
record carries the rejected 2013 year. -/
theorem normalize_year_range_witness :
    (∃ y, c7GoodRecord.year = some y ∧ 2014 ≤ y ∧ y ≤ 2024) ∧
    c7GoodRecord.year ≠ c7Old.year :=
  ⟨(normalize_year_range c7Dataset _ rfl).1 c7GoodRecord (by decide),
   (normalize_year_range c7Dataset _ rfl).2 c7Old (by decide) (by decide)
      c7GoodRecord (by decide)⟩

/-! ## Claims about the schema check and the poster columns -/

/-- A fully valid row for the C2 counterexample dataset. -/
def c2Row : Movie :=
  { title := "Nova", description := "a drama", language := some "English",
    genre := some "Drama", year := some 2020, rating := 75, image_path := none }

/-- The C2 counterexample dataset: every required data field present, but no
poster column of any recognized name. -/
def c2NoPosterColumns : RawDataset :=
  { columns := ["Title", "Description", "Language", "Genre", "Year", "Rating"],
    rows := [c2Row] }

/-- C2 counterexample: the claim says that when every row lacks all
poster-reference aliases, normalization still succeeds with null poster
references.  Line 31 of the code lists `Image_Path` among
`required_columns`, so a dataset without any poster column fails the schema
check of lines 33-35 and no catalog is built: the claim is false on the
code. -/
theorem loadAndNormalize_missing_poster_column_fails :
    loadAndNormalize c2NoPosterColumns =
      .error "Dataset is missing required columns!" := rfl

/-- C2 amended: the `Image_Path` column itself is required — its absence is a
schema failure like that of any other required column — but a present
`Image_Path` column whose every value is null is accepted: normalization
succeeds and every produced record's poster reference is null. -/
theorem loadAndNormalize_null_posters_ok :
    ∀ d : RawDataset, required_columns.all (fun c => d.columns.contains c) = true →
      (∀ row ∈ d.rows, row.image_path = none) →
      ∃ cat, loadAndNormalize d = .ok cat ∧ ∀ r ∈ cat, r.image_path = none := by
  intro d hcols hnull
  refine ⟨normalizeRows d.rows, ?_, ?_⟩
  · unfold loadAndNormalize
    rw [if_pos hcols]
  · intro r hr
    obtain ⟨r₀, h0, heq⟩ := image_path_of_mem_normalizeRows d.rows r hr
    rw [heq, hnull r₀ h0]
    rfl

/-- The C2 witness dataset: all required columns, one row, null poster. -/
def c2AllColumns : RawDataset :=
  { columns := required_columns,
    rows := [{ title := "Echo", description := "a drama",
               language := some "English", genre := some "Drama",
               year := some 2021, rating := 80, image_path := none }] }

/-- Witness for the amended C2 on a concrete dataset with a null poster
column. -/
theorem loadAndNormalize_null_posters_ok_witness :
    ∃ cat, loadAndNormalize c2AllColumns = .ok cat ∧
      ∀ r ∈ cat, r.image_path = none :=
  loadAndNormalize_null_posters_ok c2AllColumns rfl (by decide)

/-! ## Claims about the poster path repair -/

/-- C8 counterexample: the claim says the repair strips a trailing underscore
before "a file extension".  The regex of line 42 targets `_\.jpg$` only: on
the reference `poster/x_.png` the underscore precedes the `.png` extension
and survives the repair, so the claim, read over arbitrary extensions, is
false on the code. -/
theorem fixPath_png_underscore_kept :
    fixPath "poster/x_.png" = "posters/x_.png" ∧
    fixPath "poster/x_.png" ≠ "posters/x.png" :=
  ⟨rfl, by decide⟩

/-- C8 amended: the repair rewrites every occurrence of the misspelled
segment `poster/` to `posters/` as a literal substring substitution and
strips a trailing underscore immediately preceding the `.jpg` extension
specifically (the regex is anchored to `_\.jpg$`); references with neither
defect are returned unchanged.  Stated as: (1) a leading occurrence of the
segment is rewritten and replacement continues in the tail; (2) a reference
without either defect is unchanged; (3) a reference ending in `_.jpg` (and
free of the misspelled segment) loses exactly that underscore; (4) on a
concrete reference with two occurrences and a trailing underscore, both
occurrences are rewritten and the underscore is dropped. -/
theorem fixPath_repair_amended :
    (∀ t : List Char, replacePoster (posterSeg ++ t) = postersSeg ++ replacePoster t) ∧
    (∀ s : String, ¬ posterSeg <:+: s.data → ¬ underscoreJpg <:+ s.data →
        fixPath s = s) ∧
    (∀ q : List Char, ¬ posterSeg <:+: (q ++ underscoreJpg) →
        fixPath (String.mk (q ++ underscoreJpg)) = String.mk (q ++ dotJpg)) ∧
    fixPath "a/poster/poster/b_.jpg" = "a/posters/posters/b.jpg" := by
  refine ⟨fun t => rfl, ?_, ?_, rfl⟩
  · intro s h1 h2
    show String.mk (stripUnderscoreJpg (replacePoster s.data)) = s
    rw [replacePoster_eq_self _ h1, stripUnderscoreJpg_eq_self _ h2]
  · intro q h1
    show String.mk (stripUnderscoreJpg (replacePoster (q ++ underscoreJpg))) = _
    rw [replacePoster_eq_self _ h1, stripUnderscoreJpg_append]

/-- Witness for the amended C8: a defect-free reference is unchanged, and a
trailing `_.jpg` loses its underscore. -/
theorem fixPath_repair_amended_witness :
    fixPath "posters/clean.jpg" = "posters/clean.jpg" ∧
    fixPath (String.mk ("img".data ++ underscoreJpg)) =
      String.mk ("img".data ++ dotJpg) :=
  ⟨fixPath_repair_amended.2.1 "posters/clean.jpg" (by decide) (by decide),
   fixPath_repair_amended.2.2.1 "img".data (by decide)⟩

/-! ## Claims about the distinct-value enumerations -/

/-- The C10 row with a null year and every other field valid. -/
def c10NullYear : Movie :=
  { title := "Relic", description := "year unknown", language := some "English",
    genre := some "Drama", year := none, rating := 70, image_path := none }

/-- The other C10 row, fully valid. -/
def c10Kept : Movie :=
  { title := "Nova", description := "a drama", language := some "English",
    genre := some "Drama", year := some 2020, rating := 75, image_path := none }

/-- The C10 counterexample dataset. -/
def c10Dataset : RawDataset :=
  { columns := required_columns, rows := [c10NullYear, c10Kept] }

/-- C10 counterexample: the claim says a record with a null year remains in
the catalog's record sequence (merely contributing no enumeration entry).
The range filter of line 45 evaluates `NaN >= 2014` as false and drops the
row: on this two-row dataset the catalog holds only the other record, so the
null-year record does not remain. -/
theorem enumeration_null_year_row_dropped :
    loadAndNormalize c10Dataset = .ok [normTextStep (fixPathStep c10Kept)] ∧
    ∀ r ∈ normalizeRows c10Dataset.rows, r.title ≠ c10NullYear.title :=
  ⟨rfl, by decide⟩

/-- C10 amended: the language and genre enumerations omit null values —
each contains exactly the non-null values occurring among the catalog's
records, so records with a null language or genre stay in the catalog yet
contribute no entry and those two enumerations need not cover every record.
Null years, however, never reach an enumeration because the range filter
already removed such rows: every catalog record has a non-null year and
contributes it to the year enumeration, which therefore covers the whole
catalog. -/
theorem enumeration_null_policy :
    ∀ (d : RawDataset) (cat : List Movie), loadAndNormalize d = .ok cat →
      (∀ s : String, s ∈ language_options cat ↔ ∃ r ∈ cat, r.language = some s) ∧
      (∀ s : String, s ∈ genre_options cat ↔ ∃ r ∈ cat, r.genre = some s) ∧
      (∀ r ∈ cat, ∃ y, r.year = some y ∧ y ∈ year_options cat) := by
  intro d cat h
  unfold loadAndNormalize at h
  split at h
  · injection h with h'
    subst h'
    refine ⟨?_, ?_, ?_⟩
    · intro s
      rw [language_options, (List.perm_insertionSort _ _).mem_iff, mem_uniqueFirst]
      simp [List.mem_filterMap]
    · intro s
      rw [genre_options, (List.perm_insertionSort _ _).mem_iff, mem_uniqueFirst]
      simp [List.mem_filterMap]
    · intro r hr
      obtain ⟨y, hy, _, _⟩ := year_of_mem_normalizeRows _ r hr
      refine ⟨y, hy, ?_⟩
      rw [year_options, (List.perm_insertionSort _ _).mem_iff, mem_uniqueFirst]
      simp only [List.mem_filterMap, List.not_mem_nil, not_false_iff, and_true]
      exact ⟨r, hr, hy⟩
  · simp at h

/-- A C10 witness row with a null language, in-range year. -/
def c10wNullLang : Movie :=
  { title := "Mute", description := "no language", language := none,
    genre := some "Drama", year := some 2019, rating := 64, image_path := none }

/-- A fully valid C10 witness row. -/
def c10wEnglish : Movie :=
  { title := "Nova", description := "a drama", language := some "English",
    genre := some "Drama", year := some 2020, rating := 75, image_path := none }

/-- The C10 witness dataset: one null-language row, one English row. -/
def c10wDataset : RawDataset :=
  { columns := required_columns, rows := [c10wNullLang, c10wEnglish] }

/-- The catalog of the C10 witness dataset. -/
def c10wCatalog : List Movie := normalizeRows c10wDataset.rows

/-- Witness for the amended C10 on a catalog that retains a null-language
record: the enumeration characterization holds for a concrete language, and
the null-language record's year is covered by the year enumeration. -/
theorem enumeration_null_policy_witness :
    ("English" ∈ language_options c10wCatalog ↔
      ∃ r ∈ c10wCatalog, r.language = some "English") ∧
    (∃ y, (normTextStep (fixPathStep c10wNullLang)).year = some y ∧
      y ∈ year_options c10wCatalog) :=
  ⟨(enumeration_null_policy c10wDataset c10wCatalog rfl).1 "English",
   (enumeration_null_policy c10wDataset c10wCatalog rfl).2.2
      (normTextStep (fixPathStep c10wNullLang)) (by decide)⟩

